import Mathlib

/-!
Verification of the `house_assistant` electricity-tariff notifier.

The repository has two variants of the same script:
  * `src/precio_luz.py` (namespace `RootVariant` below): classifier,
    formatter taking only the period, notifier, no persisted state.
  * `src/config/scripts/precio_luz.py` (namespace `ConfigScripts` below):
    classifier, formatter taking `(now, period)` but using only the period,
    notifier, a last-output file store and a dedup gate in `run`.

Shallow embedding: a timestamp is a record of its hour, weekday
(0 = Monday … 6 = Sunday) and an abstract calendar date; the holiday
provider is a boolean function on dates; the last-output file is an
`Option String` (`none` = file does not exist); effects of a run are made
explicit as a trace record.
-/

set_option linter.unusedVariables false

/-- A timestamp as the scripts consume it: `now.hour`, `now.weekday()` and
`now.date()`.  The date is abstract: only the holiday oracle looks at it. -/
structure Timestamp where
  hour : Int
  weekday : Int
  date : Int

/-- Python `str.strip()`: remove whitespace from both ends.  A character is
whitespace when `str.isspace()` holds: U+0009–U+000D, U+001C–U+001F, space,
U+0085, U+00A0, U+1680, U+2000–U+200A, U+2028, U+2029, U+202F, U+205F,
U+3000. -/
def pyStrip (s : String) : String :=
  String.mk (((s.data.dropWhile isPySpace).reverse.dropWhile isPySpace).reverse)
where
  isPySpace (c : Char) : Bool :=
    (9 ≤ c.toNat && c.toNat ≤ 13) || (28 ≤ c.toNat && c.toNat ≤ 31) ||
    c.toNat == 32 || c.toNat == 0x85 || c.toNat == 0xA0 ||
    c.toNat == 0x1680 || (0x2000 ≤ c.toNat && c.toNat ≤ 0x200A) ||
    c.toNat == 0x2028 || c.toNat == 0x2029 || c.toNat == 0x202F ||
    c.toNat == 0x205F || c.toNat == 0x3000

namespace ConfigScripts

/-- `ElectricityPeriodCalculator.VALLE` of `src/config/scripts/precio_luz.py`. -/
def ElectricityPeriodCalculator.VALLE : String := "Hora Valle (la más barata)"

/-- `ElectricityPeriodCalculator.LLANO` of `src/config/scripts/precio_luz.py`. -/
def ElectricityPeriodCalculator.LLANO : String := "Hora Llano (precio intermedio)"

/-- `ElectricityPeriodCalculator.PUNTA` of `src/config/scripts/precio_luz.py`. -/
def ElectricityPeriodCalculator.PUNTA : String := "Hora Punta (la más cara)"

/-- `ElectricityPeriodCalculator.calculate` of `src/config/scripts/precio_luz.py`.
`is_holiday` is the injected holiday provider's `is_holiday` method. -/
def ElectricityPeriodCalculator.calculate (is_holiday : Int → Bool)
    (now : Timestamp) : String :=
  if 5 ≤ now.weekday ∨ is_holiday now.date = true then
    ElectricityPeriodCalculator.VALLE
  else if 0 ≤ now.hour ∧ now.hour < 8 then
    ElectricityPeriodCalculator.VALLE
  else if (8 ≤ now.hour ∧ now.hour < 10) ∨ (14 ≤ now.hour ∧ now.hour < 18) ∨
      (22 ≤ now.hour ∧ now.hour < 24) then
    ElectricityPeriodCalculator.LLANO
  else if (10 ≤ now.hour ∧ now.hour < 14) ∨ (18 ≤ now.hour ∧ now.hour < 22) then
    ElectricityPeriodCalculator.PUNTA
  else
    "Periodo desconocido"

/-- `MessageFormatter.format` of `src/config/scripts/precio_luz.py`: takes the
timestamp as an argument but builds the message from the period alone. -/
def MessageFormatter.format (now : Timestamp) (period : String) : String :=
  "Estás en " ++ period ++ "."

end ConfigScripts

namespace RootVariant

/-- `ElectricityPeriodCalculator.VALLE` of `src/precio_luz.py`. -/
def ElectricityPeriodCalculator.VALLE : String := "Hora Valle (la más barata)"

/-- `ElectricityPeriodCalculator.LLANO` of `src/precio_luz.py`. -/
def ElectricityPeriodCalculator.LLANO : String := "Hora Llano (precio intermedio)"

/-- `ElectricityPeriodCalculator.PUNTA` of `src/precio_luz.py`. -/
def ElectricityPeriodCalculator.PUNTA : String := "Hora Punta (la más cara)"

/-- `ElectricityPeriodCalculator.calculate` of `src/precio_luz.py`. -/
def ElectricityPeriodCalculator.calculate (is_holiday : Int → Bool)
    (now : Timestamp) : String :=
  if 5 ≤ now.weekday ∨ is_holiday now.date = true then
    ElectricityPeriodCalculator.VALLE
  else if 0 ≤ now.hour ∧ now.hour < 8 then
    ElectricityPeriodCalculator.VALLE
  else if (8 ≤ now.hour ∧ now.hour < 10) ∨ (14 ≤ now.hour ∧ now.hour < 18) ∨
      (22 ≤ now.hour ∧ now.hour < 24) then
    ElectricityPeriodCalculator.LLANO
  else if (10 ≤ now.hour ∧ now.hour < 14) ∨ (18 ≤ now.hour ∧ now.hour < 22) then
    ElectricityPeriodCalculator.PUNTA
  else
    "Periodo desconocido"

/-- `MessageFormatter.format` of `src/precio_luz.py`: takes only the period. -/
def MessageFormatter.format (period : String) : String :=
  "⚡ Estás en " ++ period ++ "."

end RootVariant

/-- Effects of a call to `TelegramNotifier.send`: the messages actually handed
to `bot.send_message` and the log lines produced.  The return type is plain
(`SendEffects`, not `Except`): any delivery error is caught inside `send`. -/
structure SendEffects where
  deliveries : List String
  logs : List String
deriving DecidableEq

/-- The underlying `bot.send_message` call, which may raise.  `deliveryFails`
abstracts the external network/API outcome. -/
def botSendMessage (deliveryFails : Bool) (message : String) :
    Except String Unit :=
  if deliveryFails then Except.error "network failure" else Except.ok ()

namespace ConfigScripts

/-- `TelegramNotifier.send` of `src/config/scripts/precio_luz.py`: empty text
returns immediately; otherwise the delivery is attempted and success or
failure is only logged. -/
def TelegramNotifier.send (deliveryFails : Bool) (message : String) :
    SendEffects :=
  if message = "" then ⟨[], []⟩
  else
    match botSendMessage deliveryFails message with
    | Except.ok _ => ⟨[message], ["Telegram message sent."]⟩
    | Except.error e => ⟨[message], ["Telegram error: " ++ e]⟩

/-- `OutputStateRepository.get_last_output` of
`src/config/scripts/precio_luz.py`: `none` when the file does not exist,
otherwise the file's text stripped of surrounding whitespace. -/
def OutputStateRepository.get_last_output (store : Option String) :
    Option String :=
  match store with
  | none => none
  | some s => some (pyStrip s)

/-- `OutputStateRepository.save_output` of
`src/config/scripts/precio_luz.py`: overwrites the file with `message`. -/
def OutputStateRepository.save_output (store : Option String)
    (message : String) : Option String :=
  some message

/-- Observable trace of one `ElectricityNotificationService.run`:
what was printed, the calls made to `notifier.send`, the resulting send
effects, the writes to the store, the store's final contents, and the
orchestrator's own log lines. -/
structure RunTrace where
  printed : String
  sendCalls : List String
  sendEffects : SendEffects
  storeWrites : List String
  finalStore : Option String
  serviceLogs : List String
deriving DecidableEq

/-- The candidate message `run` computes before the dedup gate:
`formatter.format(now, calculator.calculate(now))`. -/
def candidateMessage (is_holiday : Int → Bool) (now : Timestamp) : String :=
  MessageFormatter.format now
    (ElectricityPeriodCalculator.calculate is_holiday now)

/-- `ElectricityNotificationService.run` of
`src/config/scripts/precio_luz.py`: classify, format, print, read the last
output, and send plus save only when the candidate differs from it. -/
def ElectricityNotificationService.run (is_holiday : Int → Bool)
    (deliveryFails : Bool) (now : Timestamp) (store : Option String) :
    RunTrace :=
  let message := candidateMessage is_holiday now
  let last_message := OutputStateRepository.get_last_output store
  if some message ≠ last_message then
    let eff := TelegramNotifier.send deliveryFails message
    ⟨message, [message], eff, [message],
      OutputStateRepository.save_output store message, []⟩
  else
    ⟨message, [], ⟨[], []⟩, [], store,
      ["Message unchanged. Telegram not sent."]⟩

end ConfigScripts

namespace RootVariant

/-- `TelegramNotifier.send` of `src/precio_luz.py`: same structure as the
config-scripts variant, with slightly different log text. -/
def TelegramNotifier.send (deliveryFails : Bool) (message : String) :
    SendEffects :=
  if message = "" then ⟨[], []⟩
  else
    match botSendMessage deliveryFails message with
    | Except.ok _ => ⟨[message], ["Telegram message sent successfully."]⟩
    | Except.error e =>
        ⟨[message], ["Failed to send Telegram message: " ++ e]⟩

end RootVariant

/-- Claim C1: on a non-holiday weekday (weekday 0–4) with hour in [0,23], the
classifier returns VALLE exactly on [0,8), LLANO exactly on
[8,10) ∪ [14,18) ∪ [22,24), and PUNTA exactly on [10,14) ∪ [18,22). -/
theorem calculate_weekday_table (is_holiday : Int → Bool) (now : Timestamp)
    (hw0 : 0 ≤ now.weekday) (hw : now.weekday < 5)
    (hh0 : 0 ≤ now.hour) (hh : now.hour ≤ 23)
    (hhol : is_holiday now.date = false) :
    (ConfigScripts.ElectricityPeriodCalculator.calculate is_holiday now =
        ConfigScripts.ElectricityPeriodCalculator.VALLE ↔ now.hour < 8) ∧
    (ConfigScripts.ElectricityPeriodCalculator.calculate is_holiday now =
        ConfigScripts.ElectricityPeriodCalculator.LLANO ↔
      (8 ≤ now.hour ∧ now.hour < 10) ∨ (14 ≤ now.hour ∧ now.hour < 18) ∨
        22 ≤ now.hour) ∧
    (ConfigScripts.ElectricityPeriodCalculator.calculate is_holiday now =
        ConfigScripts.ElectricityPeriodCalculator.PUNTA ↔
      (10 ≤ now.hour ∧ now.hour < 14) ∨ (18 ≤ now.hour ∧ now.hour < 22)) := by
  have h1 : ¬ (5 ≤ now.weekday ∨ is_holiday now.date = true) := by
    simp [hhol]
    omega
  unfold ConfigScripts.ElectricityPeriodCalculator.calculate
  rw [if_neg h1]
  split_ifs with h2 h3 h4 <;>
    refine ⟨?_, ?_, ?_⟩ <;>
    simp +decide <;>
    omega

/-- Claim C1 witness: Wednesday (weekday 2), non-holiday, hour 9 is LLANO. -/
theorem calculate_weekday_table_witness :
    ConfigScripts.ElectricityPeriodCalculator.calculate (fun _ => false)
      ⟨9, 2, 0⟩ = ConfigScripts.ElectricityPeriodCalculator.LLANO :=
  ((calculate_weekday_table (fun _ => false) ⟨9, 2, 0⟩ (by decide) (by decide)
      (by decide) (by decide) rfl).2.1).mpr (by decide)

/-- Claim C2: on a weekend (weekday ≥ 5) or a holiday, the classifier returns
VALLE regardless of the hour. -/
theorem calculate_weekend_or_holiday_valle (is_holiday : Int → Bool)
    (now : Timestamp)
    (h : 5 ≤ now.weekday ∨ is_holiday now.date = true) :
    ConfigScripts.ElectricityPeriodCalculator.calculate is_holiday now =
      ConfigScripts.ElectricityPeriodCalculator.VALLE := by
  unfold ConfigScripts.ElectricityPeriodCalculator.calculate
  rw [if_pos h]

/-- Claim C2 witness: Saturday (weekday 5) at hour 11 is VALLE. -/
theorem calculate_weekend_or_holiday_valle_witness :
    ConfigScripts.ElectricityPeriodCalculator.calculate (fun _ => false)
      ⟨11, 5, 0⟩ = ConfigScripts.ElectricityPeriodCalculator.VALLE :=
  calculate_weekend_or_holiday_valle (fun _ => false) ⟨11, 5, 0⟩
    (Or.inl (by decide))

/-- Claim C6: on a non-holiday weekday with hour in [0,23] the defensive
"Periodo desconocido" branch is unreachable: the result is one of VALLE,
LLANO, PUNTA. -/
theorem calculate_unknown_unreachable (is_holiday : Int → Bool)
    (now : Timestamp)
    (hw0 : 0 ≤ now.weekday) (hw : now.weekday < 5)
    (hh0 : 0 ≤ now.hour) (hh : now.hour ≤ 23)
    (hhol : is_holiday now.date = false) :
    ConfigScripts.ElectricityPeriodCalculator.calculate is_holiday now =
        ConfigScripts.ElectricityPeriodCalculator.VALLE ∨
      ConfigScripts.ElectricityPeriodCalculator.calculate is_holiday now =
        ConfigScripts.ElectricityPeriodCalculator.LLANO ∨
      ConfigScripts.ElectricityPeriodCalculator.calculate is_holiday now =
        ConfigScripts.ElectricityPeriodCalculator.PUNTA := by
  have h1 : ¬ (5 ≤ now.weekday ∨ is_holiday now.date = true) := by
    simp [hhol]
    omega
  unfold ConfigScripts.ElectricityPeriodCalculator.calculate
  rw [if_neg h1]
  split_ifs with h2 h3 h4
  · exact Or.inl rfl
  · exact Or.inr (Or.inl rfl)
  · exact Or.inr (Or.inr rfl)
  · omega

/-- Claim C6 witness: Friday (weekday 4), non-holiday, hour 23. -/
theorem calculate_unknown_unreachable_witness :
    ConfigScripts.ElectricityPeriodCalculator.calculate (fun _ => false)
        ⟨23, 4, 0⟩ = ConfigScripts.ElectricityPeriodCalculator.VALLE ∨
      ConfigScripts.ElectricityPeriodCalculator.calculate (fun _ => false)
        ⟨23, 4, 0⟩ = ConfigScripts.ElectricityPeriodCalculator.LLANO ∨
      ConfigScripts.ElectricityPeriodCalculator.calculate (fun _ => false)
        ⟨23, 4, 0⟩ = ConfigScripts.ElectricityPeriodCalculator.PUNTA :=
  calculate_unknown_unreachable (fun _ => false) ⟨23, 4, 0⟩ (by decide)
    (by decide) (by decide) (by decide) rfl

/-- The classifier only ever returns one of its four literal strings. -/
theorem calculate_cases (is_holiday : Int → Bool) (now : Timestamp) :
    ConfigScripts.ElectricityPeriodCalculator.calculate is_holiday now =
        ConfigScripts.ElectricityPeriodCalculator.VALLE ∨
      ConfigScripts.ElectricityPeriodCalculator.calculate is_holiday now =
        ConfigScripts.ElectricityPeriodCalculator.LLANO ∨
      ConfigScripts.ElectricityPeriodCalculator.calculate is_holiday now =
        ConfigScripts.ElectricityPeriodCalculator.PUNTA ∨
      ConfigScripts.ElectricityPeriodCalculator.calculate is_holiday now =
        "Periodo desconocido" := by
  unfold ConfigScripts.ElectricityPeriodCalculator.calculate
  split_ifs <;> simp

/-- The candidate message is never the empty string, so the notifier's
empty-text guard never absorbs it. -/
theorem candidateMessage_ne_empty (is_holiday : Int → Bool) (now : Timestamp) :
    ConfigScripts.candidateMessage is_holiday now ≠ "" := by
  unfold ConfigScripts.candidateMessage ConfigScripts.MessageFormatter.format
  intro h
  have h2 := congrArg String.length h
  rw [String.length_append, String.length_append] at h2
  have e1 : ("Estás en ").length = 9 := rfl
  have e2 : (".").length = 1 := rfl
  have e3 : ("").length = 0 := rfl
  rw [e1, e2, e3] at h2
  omega

/-- Claim C3: if the stored last output equals the candidate message, `run`
makes no call to the notifier, attempts no delivery, writes nothing, and
leaves the store unchanged. -/
theorem run_unchanged_no_send_no_write (is_holiday : Int → Bool)
    (deliveryFails : Bool) (now : Timestamp) (store : Option String)
    (h : ConfigScripts.OutputStateRepository.get_last_output store =
      some (ConfigScripts.candidateMessage is_holiday now)) :
    (ConfigScripts.ElectricityNotificationService.run is_holiday deliveryFails
        now store).sendCalls = [] ∧
    (ConfigScripts.ElectricityNotificationService.run is_holiday deliveryFails
        now store).sendEffects.deliveries = [] ∧
    (ConfigScripts.ElectricityNotificationService.run is_holiday deliveryFails
        now store).storeWrites = [] ∧
    (ConfigScripts.ElectricityNotificationService.run is_holiday deliveryFails
        now store).finalStore = store := by
  simp [ConfigScripts.ElectricityNotificationService.run, h]

/-- Claim C3 witness: non-holiday Wednesday at hour 11 (PUNTA), store already
holding the candidate message. -/
theorem run_unchanged_no_send_no_write_witness :
    (ConfigScripts.ElectricityNotificationService.run (fun _ => false) false
        ⟨11, 2, 0⟩ (some "Estás en Hora Punta (la más cara).")).sendCalls =
      [] ∧
    (ConfigScripts.ElectricityNotificationService.run (fun _ => false) false
        ⟨11, 2, 0⟩
        (some "Estás en Hora Punta (la más cara).")).sendEffects.deliveries =
      [] ∧
    (ConfigScripts.ElectricityNotificationService.run (fun _ => false) false
        ⟨11, 2, 0⟩ (some "Estás en Hora Punta (la más cara).")).storeWrites =
      [] ∧
    (ConfigScripts.ElectricityNotificationService.run (fun _ => false) false
        ⟨11, 2, 0⟩ (some "Estás en Hora Punta (la más cara).")).finalStore =
      some "Estás en Hora Punta (la más cara)." :=
  run_unchanged_no_send_no_write (fun _ => false) false ⟨11, 2, 0⟩
    (some "Estás en Hora Punta (la más cara).") (by decide)

/-- Claim C4: if the store is absent or its content differs from the
candidate, `run` calls the notifier exactly once with the candidate and
writes the candidate to the store exactly once. -/
theorem run_changed_sends_once_and_saves (is_holiday : Int → Bool)
    (deliveryFails : Bool) (now : Timestamp) (store : Option String)
    (h : store = none ∨
      ConfigScripts.OutputStateRepository.get_last_output store ≠
        some (ConfigScripts.candidateMessage is_holiday now)) :
    (ConfigScripts.ElectricityNotificationService.run is_holiday deliveryFails
        now store).sendCalls =
      [ConfigScripts.candidateMessage is_holiday now] ∧
    (ConfigScripts.ElectricityNotificationService.run is_holiday deliveryFails
        now store).storeWrites =
      [ConfigScripts.candidateMessage is_holiday now] ∧
    (ConfigScripts.ElectricityNotificationService.run is_holiday deliveryFails
        now store).finalStore =
      some (ConfigScripts.candidateMessage is_holiday now) := by
  have h' : ConfigScripts.OutputStateRepository.get_last_output store ≠
      some (ConfigScripts.candidateMessage is_holiday now) := by
    rcases h with h | h
    · subst h
      simp [ConfigScripts.OutputStateRepository.get_last_output]
    · exact h
  have hcond : some (ConfigScripts.candidateMessage is_holiday now) ≠
      ConfigScripts.OutputStateRepository.get_last_output store :=
    fun he => h' he.symm
  simp [ConfigScripts.ElectricityNotificationService.run,
    ConfigScripts.OutputStateRepository.save_output, hcond]

/-- Claim C4 witness: first run (absent store) on a non-holiday Wednesday at
hour 11 sends and saves the candidate message. -/
theorem run_changed_sends_once_and_saves_witness :
    (ConfigScripts.ElectricityNotificationService.run (fun _ => false) false
        ⟨11, 2, 0⟩ none).sendCalls =
      [ConfigScripts.candidateMessage (fun _ => false) ⟨11, 2, 0⟩] ∧
    (ConfigScripts.ElectricityNotificationService.run (fun _ => false) false
        ⟨11, 2, 0⟩ none).storeWrites =
      [ConfigScripts.candidateMessage (fun _ => false) ⟨11, 2, 0⟩] ∧
    (ConfigScripts.ElectricityNotificationService.run (fun _ => false) false
        ⟨11, 2, 0⟩ none).finalStore =
      some (ConfigScripts.candidateMessage (fun _ => false) ⟨11, 2, 0⟩) :=
  run_changed_sends_once_and_saves (fun _ => false) false ⟨11, 2, 0⟩ none
    (Or.inl rfl)

/-- Claim C5: when delivery fails, the error is caught and logged inside
`send` (the run's type is total, nothing propagates), the delivery was
attempted, and the store is still updated to the candidate — a failed send is
indistinguishable from a successful one for later dedup. -/
theorem run_failed_send_still_saves (is_holiday : Int → Bool)
    (now : Timestamp) (store : Option String)
    (h : store = none ∨
      ConfigScripts.OutputStateRepository.get_last_output store ≠
        some (ConfigScripts.candidateMessage is_holiday now)) :
    (ConfigScripts.ElectricityNotificationService.run is_holiday true now
        store).sendEffects =
      ⟨[ConfigScripts.candidateMessage is_holiday now],
        ["Telegram error: network failure"]⟩ ∧
    (ConfigScripts.ElectricityNotificationService.run is_holiday true now
        store).finalStore =
      some (ConfigScripts.candidateMessage is_holiday now) := by
  have h' : ConfigScripts.OutputStateRepository.get_last_output store ≠
      some (ConfigScripts.candidateMessage is_holiday now) := by
    rcases h with h | h
    · subst h
      simp [ConfigScripts.OutputStateRepository.get_last_output]
    · exact h
  have hcond : some (ConfigScripts.candidateMessage is_holiday now) ≠
      ConfigScripts.OutputStateRepository.get_last_output store :=
    fun he => h' he.symm
  have hne := candidateMessage_ne_empty is_holiday now
  simp [ConfigScripts.ElectricityNotificationService.run,
    ConfigScripts.TelegramNotifier.send, botSendMessage,
    ConfigScripts.OutputStateRepository.save_output, hcond, hne]

/-- Claim C5 witness: first run with failing delivery still records the
attempted delivery, the error log, and the store update. -/
theorem run_failed_send_still_saves_witness :
    (ConfigScripts.ElectricityNotificationService.run (fun _ => false) true
        ⟨11, 2, 0⟩ none).sendEffects =
      ⟨[ConfigScripts.candidateMessage (fun _ => false) ⟨11, 2, 0⟩],
        ["Telegram error: network failure"]⟩ ∧
    (ConfigScripts.ElectricityNotificationService.run (fun _ => false) true
        ⟨11, 2, 0⟩ none).finalStore =
      some (ConfigScripts.candidateMessage (fun _ => false) ⟨11, 2, 0⟩) :=
  run_failed_send_still_saves (fun _ => false) ⟨11, 2, 0⟩ none (Or.inl rfl)

/-- Claim C7: the formatted message depends only on the period: the
config-scripts formatter yields identical text for any two timestamps, and
the root-variant formatter takes no timestamp at all. -/
theorem format_timestamp_independent (t1 t2 : Timestamp) (period : String) :
    ConfigScripts.MessageFormatter.format t1 period =
      ConfigScripts.MessageFormatter.format t2 period := rfl

/-- Claim C8: in both variants, calling `send` with empty text performs no
delivery, produces no log, and returns normally. -/
theorem send_empty_noop (deliveryFails : Bool) :
    ConfigScripts.TelegramNotifier.send deliveryFails "" = ⟨[], []⟩ ∧
    RootVariant.TelegramNotifier.send deliveryFails "" = ⟨[], []⟩ := by
  constructor <;> rfl

/-- Claim C9: `save_output` overwrites the store with exactly `m`;
`get_last_output` then returns `m` stripped of surrounding whitespace, hence
exactly `m` whenever `m` has no surrounding whitespace. -/
theorem output_repository_round_trip (store : Option String) (m : String) :
    ConfigScripts.OutputStateRepository.save_output store m = some m ∧
    ConfigScripts.OutputStateRepository.get_last_output
        (ConfigScripts.OutputStateRepository.save_output store m) =
      some (pyStrip m) ∧
    (pyStrip m = m →
      ConfigScripts.OutputStateRepository.get_last_output
          (ConfigScripts.OutputStateRepository.save_output store m) =
        some m) := by
  refine ⟨rfl, rfl, ?_⟩
  intro h
  simp [ConfigScripts.OutputStateRepository.get_last_output,
    ConfigScripts.OutputStateRepository.save_output, h]

/-- Claim C9 witness: round trip at a concrete whitespace-free string. -/
theorem output_repository_round_trip_witness :
    ConfigScripts.OutputStateRepository.get_last_output
        (ConfigScripts.OutputStateRepository.save_output none "abc") =
      some "abc" :=
  (output_repository_round_trip none "abc").2.2 (by decide)

/-- Claim C10: the two classifier variants agree on every input. -/
theorem calculate_variants_equiv (is_holiday : Int → Bool) (now : Timestamp) :
    RootVariant.ElectricityPeriodCalculator.calculate is_holiday now =
      ConfigScripts.ElectricityPeriodCalculator.calculate is_holiday now :=
  rfl
